import Mathlib

/-!
# Verification of the custom-model tutorial (`tutorials/custom_botorch_model_in_ax.ipynb`)

Shallow embedding of the notebook's own code (the objective function
`branin`, the search space, the custom model `SimpleCustomGP` and its
factory `_get_and_fit_custom_model`, and the driving loop) together with
the optimization-driver protocol described by the specification for the
parts whose code lives outside `src/` (the Ax/botorch driver bookkeeping,
the generators, and `botorch.fit.fit_model`).

Python floats are modelled by `PyVal`: either an exact rational or the
distinguished `nan` value, with Python's NaN-propagation for arithmetic.
The external constants and routines `numpy.pi` and `numpy.cos` are
abstracted as parameters (`piQ`, `cosFin`): no claim settled here depends
on their numeric values, only on NaN-propagation, which the `PyVal`
lifting supplies.  The global random source used by
`random.normalvariate` is modelled by explicit state passing
(`RandState`).
-/

namespace CustomBotorchTutorial

/-- A Python float value: an exact rational, or NaN.  (Infinities never
arise in the code paths modelled here.) -/
inductive PyVal where
  | num : ℚ → PyVal
  | nan : PyVal
deriving DecidableEq

namespace PyVal

/-- Python float addition: any operation touching NaN yields NaN. -/
def add : PyVal → PyVal → PyVal
  | num a, num b => num (a + b)
  | _, _ => nan

/-- Python float subtraction with NaN propagation. -/
def sub : PyVal → PyVal → PyVal
  | num a, num b => num (a - b)
  | _, _ => nan

/-- Python float multiplication with NaN propagation. -/
def mul : PyVal → PyVal → PyVal
  | num a, num b => num (a * b)
  | _, _ => nan

/-- Python float division with NaN propagation.  Rational division is
total (`a / 0 = 0`); the divisors appearing in the embedded code are
expressions in π, which is nonzero, so the `ZeroDivisionError` branch of
Python never triggers there. -/
def div : PyVal → PyVal → PyVal
  | num a, num b => num (a / b)
  | _, _ => nan

/-- Python float power with a natural exponent: `x ** 0` is `1.0` even
for NaN (as in Python), and otherwise NaN propagates. -/
def pow : PyVal → ℕ → PyVal
  | _, 0 => num 1
  | num a, n + 1 => num (a ^ (n + 1))
  | nan, _ + 1 => nan

/-- NaN test. -/
def isnan : PyVal → Bool
  | num _ => false
  | nan => true

end PyVal

/-- Abstraction of `numpy.cos` lifted to Python floats: NaN maps to NaN,
and on finite arguments it applies the supplied finite-valued function
`cosFin` (the claims settled here do not depend on its values). -/
def npCos (cosFin : ℚ → ℚ) : PyVal → PyVal
  | PyVal.num a => PyVal.num (cosFin a)
  | PyVal.nan => PyVal.nan

/-- State of the global random source of Python's `random` module,
modelled as a stream of standard-normal draws and a position in it. -/
structure RandState where
  idx : ℕ
  stream : ℕ → ℚ

/-- Model of `random.normalvariate(mu, sigma)`: consumes one draw from
the stream and scales it; returns the drawn value and the advanced
state. -/
def normalvariate (mu sigma : ℚ) (s : RandState) : PyVal × RandState :=
  (PyVal.num (mu + sigma * s.stream s.idx), ⟨s.idx + 1, s.stream⟩)

/-- The parameterization dictionary passed to the evaluation function:
it maps the names `x1` and `x2` to Python float values. -/
structure Parameterization where
  x1 : PyVal
  x2 : PyVal
deriving DecidableEq

/-- The evaluation function of the notebook (cell 7):

```python
def branin(parameterization, *args):
    x1, x2 = parameterization["x1"], parameterization["x2"]
    y = (x2 - 5.1 / (4 * np.pi ** 2) * x1 ** 2 + 5 * x1 / np.pi - 6) ** 2
    y += 10 * (1 - 1 / (8 * np.pi)) * np.cos(x1) + 10
    y += random.normalvariate(0, 0.1)
    return {"branin": (y, 0.0)}
```

`piQ` abstracts `np.pi` and `cosFin` abstracts `np.cos` on finite
arguments; the global random state is threaded explicitly.  The returned
association list is the metric dictionary, each metric mapped to
(mean, standard error). -/
def branin (cosFin : ℚ → ℚ) (piQ : ℚ) (parameterization : Parameterization)
    (s : RandState) : List (String × (PyVal × PyVal)) × RandState :=
  let x1 := parameterization.x1
  let x2 := parameterization.x2
  let pi : PyVal := PyVal.num piQ
  let y :=
    PyVal.pow
      (PyVal.sub
        (PyVal.add
          (PyVal.sub x2
            (PyVal.mul
              (PyVal.div (PyVal.num (51/10)) (PyVal.mul (PyVal.num 4) (PyVal.pow pi 2)))
              (PyVal.pow x1 2)))
          (PyVal.div (PyVal.mul (PyVal.num 5) x1) pi))
        (PyVal.num 6))
      2
  let y :=
    PyVal.add y
      (PyVal.add
        (PyVal.mul
          (PyVal.mul (PyVal.num 10)
            (PyVal.sub (PyVal.num 1)
              (PyVal.div (PyVal.num 1) (PyVal.mul (PyVal.num 8) pi))))
          (npCos cosFin x1))
        (PyVal.num 10))
  let drawn := normalvariate 0 (1/10) s
  let y := PyVal.add y drawn.1
  ([("branin", (y, PyVal.num 0))], drawn.2)

/-- The custom model of the notebook (cell 2).  `SimpleCustomGP` is an
exact GP whose constructor stores the training data `train_X` (an
`n × d` matrix) and `train_Y` (a length-`n` vector) and installs a
constant mean and a scaled ARD RBF kernel; the GP mathematics itself is
owned by the external gpytorch library, so the handle records the data
and kernel configuration the constructor fixes. -/
structure SimpleCustomGP where
  train_X : List (List ℚ)
  train_Y : List ℚ
  ard_num_dims : ℕ
deriving DecidableEq

/-- The `num_outputs` property of `SimpleCustomGP` (cell 2): it always
returns `1`. -/
def SimpleCustomGP.num_outputs (_ : SimpleCustomGP) : ℕ := 1

/-- The constructor call `SimpleCustomGP(train_X, train_Y)`: stores the
data and sets `ard_num_dims = train_X.shape[-1]` (the feature dimension,
taken from the first row; `0` for an empty training set). -/
def SimpleCustomGP.mk' (train_X : List (List ℚ)) (train_Y : List ℚ) : SimpleCustomGP :=
  ⟨train_X, train_Y, (train_X.headD []).length⟩

/-- The call `ExactMarginalLogLikelihood(model.likelihood, model)`: the mll
object handed to the fitting routine, holding the model. -/
structure ExactMarginalLogLikelihood where
  model : SimpleCustomGP
deriving DecidableEq

/-- Modelled from the spec: `botorch.fit.fit_model` is code of this
repository not present under `src/`.  Per the specification (§4.3) it
performs the numerical hyperparameter optimization for the mll's model
and must handle the degenerate case of zero or one training observation
without raising (yielding a prior-only model); fitting mutates the
model's parameters in place and the factory then returns the same model
handle, so it is modelled as total, returning the mll's model. -/
def fit_model (mll : ExactMarginalLogLikelihood) : SimpleCustomGP :=
  mll.model

/-- The keyword arguments Ax passes to a model constructor besides `Xs`
and `Ys`: the per-outcome observation variances, the optional warm-start
state dict, and the open-ended option bag.  The notebook's factory
swallows all of them in `**kwargs`. -/
structure FactoryKwargs where
  Yvars : List (List (List ℚ))
  state_dict : Option (List (String × ℚ))
  options : List (String × ℚ)

/-- The model factory of the notebook (cell 4):

```python
def _get_and_fit_custom_model(Xs, Ys, **kwargs):
    model = SimpleCustomGP(Xs[0], Ys[0].view(-1))  # collapse trailing dimension
    mll = ExactMarginalLogLikelihood(model.likelihood, model)
    fit_model(mll)
    return model
```

`Xs` and `Ys` are per-outcome lists of matrices (`n_i × d` and
`n_i × 1`); `Ys[0].view(-1)` flattens the `n × 1` matrix to a vector.
Indexing `Xs[0]` / `Ys[0]` raises `IndexError` on an empty list, so the
embedding returns `Option`, with `none` for that raising path. -/
def _get_and_fit_custom_model (Xs : List (List (List ℚ)))
    (Ys : List (List (List ℚ))) (_kwargs : FactoryKwargs) :
    Option SimpleCustomGP :=
  match Xs, Ys with
  | x0 :: _, y0 :: _ =>
    let model := SimpleCustomGP.mk' x0 y0.flatten
    let mll := ExactMarginalLogLikelihood.mk model
    some (fit_model mll)
  | _, _ => none

/-- A `RangeParameter` of the search space (cell 9): a named continuous
parameter with lower and upper bounds.  (`ParameterType.FLOAT` is the
only type used in the notebook.) -/
structure RangeParameter where
  name : String
  lower : ℚ
  upper : ℚ
deriving DecidableEq

/-- The search space of the notebook (cell 9): `x1 ∈ [-5, 10]` and
`x2 ∈ [0, 15]`. -/
def search_space : List RangeParameter :=
  [⟨"x1", -5, 10⟩, ⟨"x2", 0, 15⟩]

/-- Domain check of the Search Space Descriptor: a candidate point
(coordinates listed in parameter order) has one value per declared
parameter, each within its bounds. -/
def withinBounds (sp : List RangeParameter) (pt : List ℚ) : Bool :=
  pt.length == sp.length &&
    (sp.zip pt).all fun pv => decide (pv.1.lower ≤ pv.2) && decide (pv.2 ≤ pv.1.upper)

/-- Modelled from the spec: the quasi-random (Sobol) generator invoked
as `modelbridge.get_sobol(...)` / `sobol.gen(k)` lives outside `src/`.
Per §4.4 it is stateless given a seed and a count and produces `k`
points spanning the Search Space: each coordinate is the affine scaling
of a low-discrepancy unit-interval sample `u i j ∈ [0, 1]` into the
parameter's bounds. -/
def sobolGen (sp : List RangeParameter) (u : ℕ → ℕ → ℚ) (k : ℕ) :
    List (List ℚ) :=
  (List.range k).map fun i =>
    (List.range sp.length).map fun j =>
      let p := sp.getD j ⟨"", 0, 0⟩
      p.lower + u i j * (p.upper - p.lower)

/-- Modelled from the spec: the model-based generator
(`custom_model.gen(k)`, backed by this repository's acquisition
optimizer, not under `src/`).  Per §4.4 it solves an inner maximization
of an acquisition criterion — treated as an opaque capability `acq`
proposing a raw point per candidate index — and is itself responsible
for enforcing that every returned candidate lies within the Search
Space bounds, modelled as projection of each coordinate onto the
parameter's interval. -/
def modelGen (sp : List RangeParameter) (acq : ℕ → List ℚ) (k : ℕ) :
    List (List ℚ) :=
  (List.range k).map fun i =>
    (List.range sp.length).map fun j =>
      let p := sp.getD j ⟨"", 0, 0⟩
      max p.lower (min p.upper ((acq i).getD j 0))

/-- The fit-failure signal of the Model Factory (spec §7). -/
inductive FitError where
  | fitDiverged
deriving DecidableEq

/-- The terminal error report of the Driver (spec §7). -/
inductive RunError where
  | aborted
deriving DecidableEq

/-- The Driver's state-machine phase (spec §4.5): `DONE` carries the
reported terminal error, if any. -/
inductive Phase where
  | WARM_START
  | MODEL_GUIDED
  | DONE : Option RunError → Phase
deriving DecidableEq

/-- Driver configuration: warm-start count, round budget, per-round
batch size, and the consecutive-fit-failure limit (spec §4.5). -/
structure DriverCfg where
  warm : ℕ
  rounds : ℕ
  batch : ℕ
  limit : ℕ

/-- The Driver's collaborators (spec §2, §4.4): the quasi-random
generator, the model-based generator, the Model Factory, and the
Objective Function harness, over abstract assignment / model /
observation types. -/
structure Collab (A M O : Type) where
  sobol : ℕ → List A
  genM : M → ℕ → List A
  factory : List O → Except FitError M
  objective : A → O

/-- Modelled from the spec: the Driver's state (spec §3, §4.5) — the
phase, the append-only ObservationSet, the current FittedModel handle,
the number of completed model-guided rounds, and the running count of
consecutive fit failures.  The bookkeeping code (`SimpleExperiment`,
`new_batch_trial`, `new_trial`) lives outside `src/`. -/
structure DriverState (M O : Type) where
  phase : Phase
  obs : List O
  model : Option M
  roundsDone : ℕ
  consecFailures : ℕ

/-- Modelled from the spec: one Driver transition (spec §4.5).
In `WARM_START` the quasi-random generator proposes the warm-start
batch, the objective is evaluated there, the results are appended and
the Driver moves to `MODEL_GUIDED` (the notebook's
`exp.new_batch_trial(generator_run=sobol.gen(5))`).  In `MODEL_GUIDED`,
while the round budget remains, the factory is refit on the full
accumulated ObservationSet; on success the fresh model supersedes the
previous handle, the model-based generator proposes the batch, and the
evaluations are appended (the notebook's loop body); on
`FitDivergedError` the round appends nothing and the stale model is
kept, and once the consecutive-failure limit is reached the Driver
transitions to `DONE` reporting `AbortedRunError`.  With the budget
exhausted it transitions to `DONE` with no error.  `DONE` is
terminal. -/
def step (cfg : DriverCfg) (c : Collab A M O) (s : DriverState M O) :
    DriverState M O :=
  match s.phase with
  | Phase.WARM_START =>
    ⟨Phase.MODEL_GUIDED, s.obs ++ (c.sobol cfg.warm).map c.objective,
      s.model, s.roundsDone, s.consecFailures⟩
  | Phase.MODEL_GUIDED =>
    if s.roundsDone < cfg.rounds then
      match c.factory s.obs with
      | Except.ok m =>
        ⟨Phase.MODEL_GUIDED, s.obs ++ (c.genM m cfg.batch).map c.objective,
          some m, s.roundsDone + 1, 0⟩
      | Except.error _ =>
        if cfg.limit ≤ s.consecFailures + 1 then
          ⟨Phase.DONE (some RunError.aborted), s.obs, s.model,
            s.roundsDone, s.consecFailures + 1⟩
        else
          ⟨Phase.MODEL_GUIDED, s.obs, s.model, s.roundsDone,
            s.consecFailures + 1⟩
    else
      ⟨Phase.DONE none, s.obs, s.model, s.roundsDone, s.consecFailures⟩
  | Phase.DONE _ => s

/-- Apply `n` Driver transitions from a given state. -/
def stepN (cfg : DriverCfg) (c : Collab A M O) (s : DriverState M O) :
    ℕ → DriverState M O
  | 0 => s
  | n + 1 => step cfg c (stepN cfg c s n)

/-- The initial Driver state (spec §3 lifecycle): `WARM_START`, empty
ObservationSet, no model. -/
def initState (M O : Type) : DriverState M O :=
  ⟨Phase.WARM_START, [], none, 0, 0⟩

/-- A full run: `n` transitions from the initial state. -/
def runDriver (cfg : DriverCfg) (c : Collab A M O) (n : ℕ) :
    DriverState M O :=
  stepN cfg c (initState M O) n

/-- A concrete collaborator instantiation (over ℕ as assignment, model
and observation type) whose factory always succeeds, used to exercise
the Driver on concrete runs. -/
def cOk : Collab ℕ ℕ ℕ :=
  ⟨fun k => List.range k, fun _ k => List.range k,
    fun o => Except.ok o.length, id⟩

/-- A concrete collaborator instantiation whose factory always reports
`FitDivergedError`. -/
def cBad : Collab ℕ ℕ ℕ :=
  ⟨fun k => List.range k, fun _ k => List.range k,
    fun _ => Except.error FitError.fitDiverged, id⟩

/-- The notebook's run configuration: warm-start count 5, round budget
5, batch size 1 (cells 13 and 17), with consecutive-failure limit 2 for
the failure-semantics scenario. -/
def cfgEx : DriverCfg := ⟨5, 5, 1, 2⟩

/-- A concrete mid-run `MODEL_GUIDED` Driver state. -/
def sEx : DriverState ℕ ℕ := ⟨Phase.MODEL_GUIDED, [0, 1, 2], some 7, 1, 0⟩

/-! ## Theorems -/

/-! ### Reduction lemmas for the Driver step function -/

/-- A `MODEL_GUIDED` step with budget remaining and a successful fit
installs the freshly fitted model and appends the evaluated batch. -/
lemma step_model_guided_ok {A M O : Type} (cfg : DriverCfg)
    (c : Collab A M O) (s : DriverState M O) (m : M)
    (hph : s.phase = Phase.MODEL_GUIDED) (hlt : s.roundsDone < cfg.rounds)
    (hm : c.factory s.obs = Except.ok m) :
    step cfg c s =
      ⟨Phase.MODEL_GUIDED, s.obs ++ (c.genM m cfg.batch).map c.objective,
        some m, s.roundsDone + 1, 0⟩ := by
  unfold step
  rw [hph, if_pos hlt, hm]

/-- A `MODEL_GUIDED` step with budget remaining whose fit fails below
the consecutive-failure limit changes nothing but the failure count. -/
lemma step_model_guided_fail {A M O : Type} (cfg : DriverCfg)
    (c : Collab A M O) (s : DriverState M O) (e : FitError)
    (hph : s.phase = Phase.MODEL_GUIDED) (hlt : s.roundsDone < cfg.rounds)
    (hm : c.factory s.obs = Except.error e)
    (hcf : ¬ cfg.limit ≤ s.consecFailures + 1) :
    step cfg c s =
      ⟨Phase.MODEL_GUIDED, s.obs, s.model, s.roundsDone,
        s.consecFailures + 1⟩ := by
  unfold step
  rw [hph, if_pos hlt, hm, if_neg hcf]

/-- A `MODEL_GUIDED` step whose fit failure reaches the
consecutive-failure limit transitions to `DONE` with
`AbortedRunError`, preserving the ObservationSet and the stale model. -/
lemma step_model_guided_abort {A M O : Type} (cfg : DriverCfg)
    (c : Collab A M O) (s : DriverState M O) (e : FitError)
    (hph : s.phase = Phase.MODEL_GUIDED) (hlt : s.roundsDone < cfg.rounds)
    (hm : c.factory s.obs = Except.error e)
    (hcf : cfg.limit ≤ s.consecFailures + 1) :
    step cfg c s =
      ⟨Phase.DONE (some RunError.aborted), s.obs, s.model, s.roundsDone,
        s.consecFailures + 1⟩ := by
  unfold step
  rw [hph, if_pos hlt, hm, if_pos hcf]

/-- C10: for every ParameterAssignment (and any abstraction of the
external numeric routines and any random-source state), the objective
harness returns a result whose standard error for the `branin` metric is
exactly `0.0`, even though a random noise term is added to the reported
mean; in particular the `standard_error ≥ 0` invariant holds for the
observations it produces. -/
theorem C10_branin_standard_error_zero (cosFin : ℚ → ℚ) (piQ : ℚ)
    (p : Parameterization) (s : RandState) :
    ∃ y : PyVal,
      (branin cosFin piQ p s).1 = [("branin", (y, PyVal.num 0))] ∧
        (0 : ℚ) ≤ 0 :=
  ⟨_, rfl, le_refl 0⟩

/-- C5: the objective harness is deterministic apart from the explicitly
modelled noise source: two evaluations of `branin` on the same
ParameterAssignment starting from the same random-source state yield
identical metric results (and identical successor states). -/
theorem C5_branin_deterministic (cosFin : ℚ → ℚ) (piQ : ℚ)
    (p : Parameterization) (s₁ s₂ : RandState) (h : s₁ = s₂) :
    branin cosFin piQ p s₁ = branin cosFin piQ p s₂ := by
  rw [h]

/-- C5 witness: at a concrete assignment and a concrete seeded noise
stream, the two evaluations agree. -/
theorem C5_branin_deterministic_witness :
    branin (fun _ => 0) 3 ⟨PyVal.num 1, PyVal.num 2⟩ ⟨0, fun _ => 0⟩ =
      branin (fun _ => 0) 3 ⟨PyVal.num 1, PyVal.num 2⟩ ⟨0, fun _ => 0⟩ :=
  C5_branin_deterministic (fun _ => 0) 3 ⟨PyVal.num 1, PyVal.num 2⟩
    ⟨0, fun _ => 0⟩ ⟨0, fun _ => 0⟩ rfl

/-- C6 counterexample: on the assignment `x1 = NaN, x2 = 0` the harness
does not raise any domain error — it silently returns a normal metric
dictionary (whose mean is NaN), refuting the claim that invalid numeric
input is propagated as an error. -/
theorem C6_counterexample :
    (branin (fun _ => 0) 3 ⟨PyVal.nan, PyVal.num 0⟩ ⟨0, fun _ => 0⟩).1 =
        [("branin", (PyVal.nan, PyVal.num 0))] ∧
      PyVal.isnan PyVal.nan = true :=
  ⟨rfl, rfl⟩

/-- C6 amended: on any ParameterAssignment containing a NaN value the
harness does not raise; it silently returns the metric dictionary
`{"branin": (NaN, 0.0)}` — the invalidity propagates through the
arithmetic into the reported mean rather than surfacing as a domain
error. -/
theorem C6_nan_silently_returned (cosFin : ℚ → ℚ) (piQ : ℚ)
    (p : Parameterization) (s : RandState)
    (h : p.x1 = PyVal.nan ∨ p.x2 = PyVal.nan) :
    (branin cosFin piQ p s).1 = [("branin", (PyVal.nan, PyVal.num 0))] := by
  obtain ⟨x1, x2⟩ := p
  cases x1 with
  | num a =>
    cases x2 with
    | num b => simp at h
    | nan => rfl
  | nan => cases x2 <;> rfl

/-- C6 witness for the amended statement: concrete NaN-containing
assignment (`x2 = NaN`). -/
theorem C6_nan_silently_returned_witness :
    (branin (fun _ => 0) 3 ⟨PyVal.num 1, PyVal.nan⟩ ⟨0, fun _ => 0⟩).1 =
      [("branin", (PyVal.nan, PyVal.num 0))] :=
  C6_nan_silently_returned (fun _ => 0) 3 ⟨PyVal.num 1, PyVal.nan⟩
    ⟨0, fun _ => 0⟩ (Or.inr rfl)

/-- C1: on every valid input (at least one tracked outcome present in
`Xs` and `Ys`) with zero or one training observation, the model factory
returns a FittedModel without raising; the returned model is fit with
exactly the supplied (≤ 1) observations, i.e. behaves as a prior-only
model. -/
theorem C1_factory_degenerate_data (Xs Ys : List (List (List ℚ)))
    (kwargs : FactoryKwargs) (hXs : Xs ≠ []) (hYs : Ys ≠ [])
    (hn : (Xs.headD []).length ≤ 1) :
    ∃ m : SimpleCustomGP,
      _get_and_fit_custom_model Xs Ys kwargs = some m ∧
        m.train_X = Xs.headD [] ∧ m.train_Y = (Ys.headD []).flatten ∧
          m.train_X.length ≤ 1 := by
  match Xs, Ys with
  | [], _ => exact absurd rfl hXs
  | _ :: _, [] => exact absurd rfl hYs
  | x0 :: _, y0 :: _ => exact ⟨_, rfl, rfl, rfl, hn⟩

/-- C1 witness: a single observation (`n = 1`, one outcome, feature
dimension 2) yields a FittedModel. -/
theorem C1_factory_degenerate_data_witness :
    ∃ m : SimpleCustomGP,
      _get_and_fit_custom_model [[[1, 2]]] [[[3]]] ⟨[], none, []⟩ = some m ∧
        m.train_X = ([[[1, 2]]] : List (List (List ℚ))).headD [] ∧
          m.train_Y = (([[[3]]] : List (List (List ℚ))).headD []).flatten ∧
            m.train_X.length ≤ 1 :=
  C1_factory_degenerate_data [[[1, 2]]] [[[3]]] ⟨[], none, []⟩
    (by decide) (by decide) (by decide)

/-- C4 counterexample: with `m = 2` tracked outcomes (`Xs`, `Ys` of
outer length 2) the factory returns a model whose reported
`num_outputs` is `1`, not `2`, refuting the claim that the reported
number of tracked outcomes equals `m` for every `m ≥ 1`. -/
theorem C4_counterexample :
    Option.map SimpleCustomGP.num_outputs
        (_get_and_fit_custom_model [[[0]], [[1]]] [[[0]], [[1]]]
          ⟨[], none, []⟩) = some 1 ∧
      ([[[0]], [[1]]] : List (List (List ℚ))).length = 2 ∧ (1 : ℕ) ≠ 2 := by
  refine ⟨rfl, rfl, by decide⟩

/-- C4 amended: for every valid input with `m ≥ 1` tracked outcomes the
factory returns a FittedModel, but the model is built from the first
outcome's data only and always reports `num_outputs = 1`; the reported
count equals `m` exactly when `m = 1`. -/
theorem C4_factory_num_outputs (Xs Ys : List (List (List ℚ)))
    (kwargs : FactoryKwargs) (hXs : Xs ≠ []) (hYs : Ys ≠ []) :
    ∃ m : SimpleCustomGP,
      _get_and_fit_custom_model Xs Ys kwargs = some m ∧
        m.num_outputs = 1 ∧ (Xs.length = 1 → m.num_outputs = Xs.length) := by
  match Xs, Ys with
  | [], _ => exact absurd rfl hXs
  | _ :: _, [] => exact absurd rfl hYs
  | x0 :: xt, y0 :: _ => exact ⟨_, rfl, rfl, fun h => h.symm⟩

/-- C4 witness for the amended statement: one tracked outcome, the
reported outcome count is 1 and matches `m`. -/
theorem C4_factory_num_outputs_witness :
    ∃ m : SimpleCustomGP,
      _get_and_fit_custom_model [[[1, 2]]] [[[3]]] ⟨[], none, []⟩ = some m ∧
        m.num_outputs = 1 ∧
          (([[[1, 2]]] : List (List (List ℚ))).length = 1 →
            m.num_outputs = ([[[1, 2]]] : List (List (List ℚ))).length) :=
  C4_factory_num_outputs [[[1, 2]]] [[[3]]] ⟨[], none, []⟩
    (by decide) (by decide)

/-- C9: the factory's output depends only on the first outcome's
training features and observed means: two calls that agree on `Xs[0]`
and `Ys[0]` (and may differ in the remaining outcomes, the observation
variances, the warm-start state dict, and every other keyword option)
return the same fitted model. -/
theorem C9_factory_depends_only_on_first_outcome
    (Xs Xs' Ys Ys' : List (List (List ℚ))) (kw kw' : FactoryKwargs)
    (hX : Xs.head? = Xs'.head?) (hY : Ys.head? = Ys'.head?) :
    _get_and_fit_custom_model Xs Ys kw =
      _get_and_fit_custom_model Xs' Ys' kw' := by
  cases Xs <;> cases Xs' <;> cases Ys <;> cases Ys' <;>
    simp_all [_get_and_fit_custom_model]

/-- C9 witness: two calls agreeing on `Xs[0]`, `Ys[0]` but differing in
trailing outcomes, in `Yvars`, in the state dict and in the option bag
produce the same model. -/
theorem C9_factory_depends_only_on_first_outcome_witness :
    _get_and_fit_custom_model [[[1, 2]], [[9]]] [[[3]]]
        ⟨[[[4]]], none, []⟩ =
      _get_and_fit_custom_model [[[1, 2]]] [[[3]], [[7]]]
        ⟨[[[5]]], some [("k", 1)], [("opt", 2)]⟩ :=
  C9_factory_depends_only_on_first_outcome [[[1, 2]], [[9]]] [[[1, 2]]]
    [[[3]]] [[[3]], [[7]]] ⟨[[[4]]], none, []⟩
    ⟨[[[5]]], some [("k", 1)], [("opt", 2)]⟩ (by decide) (by decide)

/-- Run invariant for failure-free runs: after the warm-start
transition and `n ≤ rounds` model-guided rounds, the Driver is still in
`MODEL_GUIDED`, has completed exactly `n` rounds, and holds
`warm + n·batch` observations. -/
lemma runDriver_invariant {A M O : Type} (cfg : DriverCfg)
    (c : Collab A M O)
    (hfac : ∀ o : List O, ∃ m, c.factory o = Except.ok m)
    (hgen : ∀ m, (c.genM m cfg.batch).length = cfg.batch)
    (hsob : (c.sobol cfg.warm).length = cfg.warm) :
    ∀ n, n ≤ cfg.rounds →
      (runDriver cfg c (n + 1)).phase = Phase.MODEL_GUIDED ∧
        (runDriver cfg c (n + 1)).roundsDone = n ∧
          (runDriver cfg c (n + 1)).obs.length =
            cfg.warm + n * cfg.batch := by
  intro n
  induction n with
  | zero =>
    intro _
    refine ⟨rfl, rfl, ?_⟩
    show ((initState M O).obs ++ (c.sobol cfg.warm).map c.objective).length = _
    simp [initState, hsob]
  | succ k ih =>
    intro hk
    obtain ⟨hph, hrd, hlen⟩ := ih (Nat.le_of_succ_le hk)
    obtain ⟨m, hm⟩ := hfac (runDriver cfg c (k + 1)).obs
    have hlt : (runDriver cfg c (k + 1)).roundsDone < cfg.rounds := by
      rw [hrd]; exact Nat.lt_of_succ_le hk
    have hstep := step_model_guided_ok cfg c (runDriver cfg c (k + 1)) m
      hph hlt hm
    have hrun : runDriver cfg c (k + 2) = step cfg c (runDriver cfg c (k + 1)) :=
      rfl
    rw [hrun, hstep]
    refine ⟨rfl, by simp [hrd], ?_⟩
    simp only [List.length_append, List.length_map, hlen, hgen, Nat.succ_mul]
    omega

/-- C2: absent failures, after the warm start and `n ≤ rounds` completed
model-guided rounds of batch size `b` the ObservationSet holds exactly
(warm-start count) + `n·b` observations. -/
theorem C2_observation_count {A M O : Type} (cfg : DriverCfg)
    (c : Collab A M O)
    (hfac : ∀ o : List O, ∃ m, c.factory o = Except.ok m)
    (hgen : ∀ m, (c.genM m cfg.batch).length = cfg.batch)
    (hsob : (c.sobol cfg.warm).length = cfg.warm)
    (n : ℕ) (hn : n ≤ cfg.rounds) :
    (runDriver cfg c (n + 1)).obs.length = cfg.warm + n * cfg.batch :=
  (runDriver_invariant cfg c hfac hgen hsob n hn).2.2

/-- C2 witness: warm-start count 5, 5 rounds of batch size 1 (the
notebook's configuration) leave exactly 10 observations. -/
theorem C2_observation_count_witness :
    (runDriver cfgEx cOk (5 + 1)).obs.length = 10 := by
  have h := C2_observation_count cfgEx cOk
    (fun o => ⟨o.length, rfl⟩) (fun m => by simp [cOk, cfgEx])
    (by simp [cOk, cfgEx]) 5 (by decide)
  simpa [cfgEx] using h

/-- Failure invariant: from a `MODEL_GUIDED` state with a clean failure
count and budget remaining, an always-diverging factory leaves the
Driver, for the first `j < limit` steps, in `MODEL_GUIDED` with the
ObservationSet, the stale model and the round count untouched and the
consecutive-failure count equal to `j`. -/
lemma stepN_failure_invariant {A M O : Type} (cfg : DriverCfg)
    (c : Collab A M O)
    (hbad : ∀ o : List O, c.factory o = Except.error FitError.fitDiverged)
    (s : DriverState M O) (hph : s.phase = Phase.MODEL_GUIDED)
    (hcf : s.consecFailures = 0) (hrd : s.roundsDone < cfg.rounds) :
    ∀ j, j < cfg.limit →
      stepN cfg c s j =
        ⟨Phase.MODEL_GUIDED, s.obs, s.model, s.roundsDone, j⟩ := by
  intro j
  induction j with
  | zero =>
    intro _
    obtain ⟨ph, obs, mdl, rd, cf⟩ := s
    simp only at hph hcf
    rw [show stepN cfg c ⟨ph, obs, mdl, rd, cf⟩ 0 = ⟨ph, obs, mdl, rd, cf⟩
      from rfl, hph, hcf]
  | succ k ih =>
    intro hk
    have hk' : k < cfg.limit := Nat.lt_of_succ_lt hk
    have hstep : stepN cfg c s (k + 1) = step cfg c (stepN cfg c s k) := rfl
    rw [hstep, ih hk',
      step_model_guided_fail cfg c
        ⟨Phase.MODEL_GUIDED, s.obs, s.model, s.roundsDone, k⟩
        FitError.fitDiverged rfl hrd (hbad _) (Nat.not_le.mpr hk)]

/-- C3: when the Model Factory always raises `FitDivergedError`, the
Driver (started from a `MODEL_GUIDED` state with budget remaining and a
clean failure count) stays out of `DONE` for the first `limit - 1`
failing rounds, appending no observations and reusing the stale
FittedModel; at the configured consecutive-failure limit it transitions
to `DONE` reporting `AbortedRunError`, with the ObservationSet exactly
as before the first failure. -/
theorem C3_fit_failure_semantics {A M O : Type} (cfg : DriverCfg)
    (c : Collab A M O)
    (hbad : ∀ o : List O, c.factory o = Except.error FitError.fitDiverged)
    (s : DriverState M O) (hph : s.phase = Phase.MODEL_GUIDED)
    (hcf : s.consecFailures = 0) (hrd : s.roundsDone < cfg.rounds)
    (hlim : 0 < cfg.limit) :
    (∀ j, j < cfg.limit →
        (stepN cfg c s j).phase = Phase.MODEL_GUIDED ∧
          (stepN cfg c s j).obs = s.obs ∧
            (stepN cfg c s j).model = s.model) ∧
      (stepN cfg c s cfg.limit).phase = Phase.DONE (some RunError.aborted) ∧
        (stepN cfg c s cfg.limit).obs = s.obs ∧
          (stepN cfg c s cfg.limit).model = s.model := by
  have hinv := stepN_failure_invariant cfg c hbad s hph hcf hrd
  constructor
  · intro j hj
    rw [hinv j hj]
    exact ⟨rfl, rfl, rfl⟩
  · obtain ⟨l, hl⟩ := Nat.exists_eq_add_of_lt hlim
    have hl' : cfg.limit = l + 1 := by omega
    have hstep : stepN cfg c s (l + 1) = step cfg c (stepN cfg c s l) := rfl
    rw [hl', hstep, hinv l (by omega),
      step_model_guided_abort cfg c
        ⟨Phase.MODEL_GUIDED, s.obs, s.model, s.roundsDone, l⟩
        FitError.fitDiverged rfl hrd (hbad _)
        (show cfg.limit ≤ l + 1 by omega)]
    exact ⟨rfl, rfl, rfl⟩

/-- C3 witness: with limit 2 and an always-diverging factory, one
failing round leaves the Driver in `MODEL_GUIDED` with the observations
and the stale model untouched, and the second failure transitions to
`DONE (AbortedRunError)` with the ObservationSet unchanged. -/
theorem C3_fit_failure_semantics_witness :
    (stepN cfgEx cBad sEx 1).phase = Phase.MODEL_GUIDED ∧
      (stepN cfgEx cBad sEx 1).obs = sEx.obs ∧
        (stepN cfgEx cBad sEx 1).model = sEx.model ∧
          (stepN cfgEx cBad sEx 2).phase =
              Phase.DONE (some RunError.aborted) ∧
            (stepN cfgEx cBad sEx 2).obs = sEx.obs ∧
              (stepN cfgEx cBad sEx 2).model = sEx.model := by
  have h := C3_fit_failure_semantics cfgEx cBad (fun _ => rfl) sEx rfl rfl
    (by decide) (by decide)
  have h1 := h.1 1 (by decide)
  exact ⟨h1.1, h1.2.1, h1.2.2, h.2.1, h.2.2.1, h.2.2.2⟩

/-- C8: in every `MODEL_GUIDED` round with budget remaining, the model
installed for the round is exactly the factory's output on the full
accumulated ObservationSet at that point, the round's candidates are
generated from that fresh model, and the fresh handle supersedes the
previous one — the installed model is the same whatever handle (if any)
the previous round left behind, so the old handle is never consulted or
mutated. -/
theorem C8_fresh_model_from_accumulated_data {A M O : Type}
    (cfg : DriverCfg) (c : Collab A M O) (s : DriverState M O) (m : M)
    (hph : s.phase = Phase.MODEL_GUIDED) (hlt : s.roundsDone < cfg.rounds)
    (hm : c.factory s.obs = Except.ok m) :
    (step cfg c s).model = some m ∧
      (step cfg c s).obs = s.obs ++ (c.genM m cfg.batch).map c.objective ∧
        ∀ m₀ : Option M,
          (step cfg c
              ⟨Phase.MODEL_GUIDED, s.obs, m₀, s.roundsDone,
                s.consecFailures⟩).model = some m := by
  rw [step_model_guided_ok cfg c s m hph hlt hm]
  refine ⟨rfl, rfl, fun m₀ => ?_⟩
  rw [step_model_guided_ok cfg c
    ⟨Phase.MODEL_GUIDED, s.obs, m₀, s.roundsDone, s.consecFailures⟩ m
    rfl hlt hm]

/-- C8 witness: from a concrete mid-run state, the round installs the
factory's output on the full current ObservationSet and does so
regardless of the stale handle. -/
theorem C8_fresh_model_from_accumulated_data_witness :
    (step cfgEx cOk sEx).model = some 3 ∧
      (step cfgEx cOk sEx).obs =
          sEx.obs ++ (cOk.genM 3 cfgEx.batch).map cOk.objective ∧
        (step cfgEx cOk
            ⟨Phase.MODEL_GUIDED, sEx.obs, some 99, sEx.roundsDone,
              sEx.consecFailures⟩).model = some 3 := by
  have h := C8_fresh_model_from_accumulated_data cfgEx cOk sEx 3 rfl
    (by decide) rfl
  exact ⟨h.1, h.2.1, h.2.2 (some 99)⟩

/-- Bounds helper: a point whose `j`-th coordinate lies within the
`j`-th parameter's bounds for every `j` passes the Search Space domain
check. -/
lemma withinBounds_map_range (sp : List RangeParameter) (f : ℕ → ℚ)
    (hf : ∀ j, j < sp.length →
      (sp.getD j ⟨"", 0, 0⟩).lower ≤ f j ∧
        f j ≤ (sp.getD j ⟨"", 0, 0⟩).upper) :
    withinBounds sp ((List.range sp.length).map f) = true := by
  unfold withinBounds
  rw [Bool.and_eq_true]
  refine ⟨by simp, ?_⟩
  rw [List.all_eq_true]
  intro pv hpv
  obtain ⟨n, hn, hget⟩ := List.mem_iff_getElem.mp hpv
  have hn' : n < sp.length := by
    simp only [List.length_zip, List.length_map, List.length_range] at hn
    omega
  rw [List.getElem_zip, List.getElem_map, List.getElem_range] at hget
  have hsp := List.getD_eq_getElem sp (⟨"", 0, 0⟩ : RangeParameter) hn'
  obtain ⟨h1, h2⟩ := hf n hn'
  rw [hsp] at h1 h2
  rw [← hget]
  rw [Bool.and_eq_true, decide_eq_true_eq, decide_eq_true_eq]
  exact ⟨h1, h2⟩

/-- C7: every candidate produced by either Generator variant — the
quasi-random warm-start generator scaling low-discrepancy unit samples,
or the model-based generator projecting acquisition solutions — lies
within its ParameterSpec bounds of the Search Space; the Generator
itself enforces this (the Driver appears nowhere in the statement). -/
theorem C7_generators_within_bounds (sp : List RangeParameter)
    (u : ℕ → ℕ → ℚ) (acq : ℕ → List ℚ) (k k' : ℕ)
    (hsp : ∀ p ∈ sp, p.lower ≤ p.upper)
    (hu : ∀ i j, 0 ≤ u i j ∧ u i j ≤ 1) :
    (sobolGen sp u k).all (withinBounds sp) = true ∧
      (modelGen sp acq k').all (withinBounds sp) = true := by
  constructor
  · rw [List.all_eq_true]
    intro pt hpt
    simp only [sobolGen, List.mem_map, List.mem_range] at hpt
    obtain ⟨i, _, rfl⟩ := hpt
    apply withinBounds_map_range
    intro j hj
    have hmem : sp.getD j ⟨"", 0, 0⟩ ∈ sp := by
      rw [List.getD_eq_getElem sp _ hj]
      exact List.getElem_mem hj
    have hle := hsp _ hmem
    obtain ⟨hu0, hu1⟩ := hu i j
    constructor
    · have : 0 ≤ u i j * ((sp.getD j ⟨"", 0, 0⟩).upper -
          (sp.getD j ⟨"", 0, 0⟩).lower) :=
        mul_nonneg hu0 (sub_nonneg.mpr hle)
      linarith
    · have : u i j * ((sp.getD j ⟨"", 0, 0⟩).upper -
          (sp.getD j ⟨"", 0, 0⟩).lower) ≤
            1 * ((sp.getD j ⟨"", 0, 0⟩).upper -
              (sp.getD j ⟨"", 0, 0⟩).lower) :=
        mul_le_mul_of_nonneg_right hu1 (sub_nonneg.mpr hle)
      linarith
  · rw [List.all_eq_true]
    intro pt hpt
    simp only [modelGen, List.mem_map, List.mem_range] at hpt
    obtain ⟨i, _, rfl⟩ := hpt
    apply withinBounds_map_range
    intro j hj
    have hmem : sp.getD j ⟨"", 0, 0⟩ ∈ sp := by
      rw [List.getD_eq_getElem sp _ hj]
      exact List.getElem_mem hj
    have hle := hsp _ hmem
    exact ⟨le_max_left _ _, max_le hle (min_le_left _ _)⟩

/-- C7 witness: on the notebook's search space (`x1 ∈ [-5, 10]`,
`x2 ∈ [0, 15]`), five quasi-random candidates and one model-based
candidate (from an out-of-range acquisition proposal) all pass the
domain check. -/
theorem C7_generators_within_bounds_witness :
    (sobolGen search_space (fun _ _ => (1 : ℚ)/2) 5).all
        (withinBounds search_space) = true ∧
      (modelGen search_space (fun _ => [20, -3]) 1).all
        (withinBounds search_space) = true :=
  C7_generators_within_bounds search_space (fun _ _ => (1 : ℚ)/2)
    (fun _ => [20, -3]) 5 1 (by decide) (fun i j => by norm_num)

end CustomBotorchTutorial
